import Mathlib

/-!
Verification development for the DeepWebResearcher research-automation
service (files `draftagent.py` and `app.py`).

The pipeline stages, the reference-extraction algorithm, the job
submission/polling endpoints and the background task are shallowly
embedded below.  External collaborators (the Tavily search provider,
the two LLM chains, the RAG context provider) are modelled as oracle
values of type `Except String _`: `Except.ok v` means the call returned
`v`, `Except.error e` means the call raised an exception whose message
is `e`.  Python strings are modelled as `String` or `List Char`
(`List Char` where the code does character-level work), Python dicts
with a fixed key set as structures whose fields are `Option`s (a `none`
field is an absent key), and Python lists as `List`.
-/

/-! ## Decimal rendering of a natural number (Python `str(n)` for `n ≥ 0`)

`natDigitsAux` is fuel-indexed so that it is structurally recursive and
evaluates inside `decide`; the fuel `n + 1` always suffices because the
argument is divided by 10 at every step. -/

def digitChar (d : Nat) : Char := Char.ofNat (48 + d)

def natDigitsAux : Nat → Nat → List Char
  | 0, _ => []
  | fuel + 1, n =>
    if n < 10 then [digitChar n]
    else natDigitsAux fuel (n / 10) ++ [digitChar (n % 10)]

def natDigits (n : Nat) : List Char := natDigitsAux (n + 1) n

/-! ## Python `str.split(". ")` (used by `extract_references`)

`splitDotSpace` splits a character list at every non-overlapping
occurrence of the two-character separator `". "`, scanning left to
right, exactly like Python `split`. -/

def consHead (c : Char) : List (List Char) → List (List Char)
  | [] => [[c]]
  | h :: t => (c :: h) :: t

def splitDotSpace : List Char → List (List Char)
  | [] => [[]]
  | [c] => [[c]]
  | c1 :: c2 :: rest =>
    if c1 = '.' ∧ c2 = ' ' then [] :: splitDotSpace rest
    else consHead c1 (splitDotSpace (c2 :: rest))

/-- True when the separator `". "` occurs somewhere in the list. -/
def hasDotSpace : List Char → Bool
  | [] => false
  | [_] => false
  | c1 :: c2 :: rest =>
    if c1 = '.' ∧ c2 = ' ' then true else hasDotSpace (c2 :: rest)

/-- Python `ref.split(". ")[1]`: the second chunk of the `". "`-split of a
reference entry.  In the source every entry contains a `". "`, so the
out-of-range default is never taken on the values the code builds. -/
def urlPart (ref : List Char) : List Char := (splitDotSpace ref).getD 1 []

/-! ## Python `re.findall(r"Source: (https?://[^\n]+)", verification_data)`

A match starts wherever the literal `Source: ` is immediately followed
by `http://` or `https://` and at least one further non-newline
character; the capture is everything from after `Source: ` up to (not
including) the next newline, and scanning resumes after the capture.
`findSourcesAux` is fuel-indexed (fuel `s.length` suffices: every step
consumes at least one character), so it evaluates inside `decide`. -/

def sourceHttp : List Char := ("Source: http://").toList

def sourceHttps : List Char := ("Source: https://").toList

def sourceMatchAt (s : List Char) : Bool :=
  (sourceHttp.isPrefixOf s && ((s.drop 15).headD '\n') != '\n') ||
  (sourceHttps.isPrefixOf s && ((s.drop 16).headD '\n') != '\n')

def findSourcesAux : Nat → List Char → List (List Char)
  | 0, _ => []
  | _ + 1, [] => []
  | n + 1, c :: cs =>
    if sourceMatchAt (c :: cs) then
      ((c :: cs).drop 8).takeWhile (fun x => x != '\n') ::
        findSourcesAux n (((c :: cs).drop 8).dropWhile (fun x => x != '\n'))
    else findSourcesAux n cs

def findSources (s : List Char) : List (List Char) := findSourcesAux s.length s

/-! ## Data model: claims and verification records (`draftagent.py`)

A claim is the dict `{claim, importance}` produced by `extract_claims`;
a verification record is the dict built by `verify_claims` from the
fact-checker output.  Absent dict keys are `none`. -/

structure Claim where
  claim : Option String := none
  importance : Option String := none
deriving DecidableEq

structure SearchResult where
  url : Option String := none
  title : Option String := none
  content : Option String := none
deriving DecidableEq

structure Verification where
  accuracy_score : Option Int := none
  confidence_level : Option Int := none
  inaccuracies : Option (List String) := none
  missing_context : Option (List String) := none
  potential_biases : Option (List String) := none
  corrected_claim : Option String := none
  claim : Option String := none
  importance : Option String := none
  verification_data : Option (List Char) := none
deriving DecidableEq

/-! ## `extract_references` (draftagent.py lines 211-219)

For each record, scan `verification_data` for `Source: <url>` lines; a
found url is appended as `"<n>. <url>"` (n = new length) unless the
list `[ref.split(". ")[1] for ref in references]` already contains it.
The unused Python loop index `enumerate(..., 1)` is dropped. -/

def addSource (references : List (List Char)) (source : List Char) : List (List Char) :=
  if source ∈ references.map urlPart then references
  else references ++ [natDigits (references.length + 1) ++ '.' :: ' ' :: source]

def extract_references (verification_results : List Verification) : List (List Char) :=
  verification_results.foldl
    (fun references r => (findSources (r.verification_data.getD [])).foldl addSource references)
    []

/-- All urls scanned by `extract_references`, in record order then
in-text order. -/
def allSources (verification_results : List Verification) : List (List Char) :=
  (verification_results.map (fun r => findSources (r.verification_data.getD []))).flatten

/-! ## Spec-side characterization used by the amended claim C2

`numberedRefs urls` is the list `["1. u1", "2. u2", ...]`;
`dedupFirst l` keeps the first occurrence of every element of `l`,
preserving order. -/

def numberedRefsAux : Nat → List (List Char) → List (List Char)
  | _, [] => []
  | k, u :: rest => (natDigits k ++ '.' :: ' ' :: u) :: numberedRefsAux (k + 1) rest

def numberedRefs (urls : List (List Char)) : List (List Char) := numberedRefsAux 1 urls

def dedupFirstAux : List (List Char) → List (List Char) → List (List Char)
  | acc, [] => acc
  | acc, u :: rest => if u ∈ acc then dedupFirstAux acc rest else dedupFirstAux (acc ++ [u]) rest

def dedupFirst (l : List (List Char)) : List (List Char) := dedupFirstAux [] l

/-! ## Think-tag stripping (draftagent.py line 435)

Python `re.sub(r'<think>.*?</think>', '', draft, flags=re.DOTALL)`:
repeatedly take the leftmost position where the literal `<think>`
matches and a later `</think>` exists, delete from the opening tag up
to and including the earliest such `</think>`, and resume scanning
after the deleted span.  `stripThinkAux` is fuel-indexed (fuel
`s.length` suffices: every step consumes at least one character), so it
evaluates inside `decide`. -/

def isOpenTag (s : List Char) : Bool := ("<think>").toList.isPrefixOf s

/-- Locate the earliest occurrence of the literal `</think>` and return
the suffix that follows it, or `none` when there is no occurrence. -/
def findCloseAfter : List Char → Option (List Char)
  | [] => none
  | c :: cs =>
    if ("</think>").toList.isPrefixOf (c :: cs) then some ((c :: cs).drop 8)
    else findCloseAfter cs

def stripThinkAux : Nat → List Char → List Char
  | _, [] => []
  | 0, s => s
  | n + 1, c :: cs =>
    if isOpenTag (c :: cs) then
      match findCloseAfter ((c :: cs).drop 7) with
      | some rest => stripThinkAux n rest
      | none => c :: stripThinkAux n cs
    else c :: stripThinkAux n cs

def stripThink (s : List Char) : List Char := stripThinkAux s.length s

/-- True when the pattern `<think>.*?</think>` matches somewhere in `s`:
some position starts with `<think>` and a `</think>` occurs after it. -/
def hasThinkMatch : List Char → Bool
  | [] => false
  | c :: cs =>
    (isOpenTag (c :: cs) && (findCloseAfter ((c :: cs).drop 7)).isSome) || hasThinkMatch cs

/-! ## `extract_claims` (draftagent.py lines 98-127)

The extraction chain either raises (`Except.error`, covering both model
errors and JSON decode failures) or yields a decoded JSON value:
a JSON array (whose claim-shaped elements are modelled as `Claim`
records), a JSON object containing a `claim` key, or any other value. -/

inductive ExtractResult where
  | jlist (items : List Claim)
  | jdictClaim (c : Claim)
  | jother
deriving DecidableEq

def extract_claims (chainResult : Except String ExtractResult) : List Claim :=
  match chainResult with
  | Except.error e =>
    [{ claim := some ("Error extracting claims: " ++ e), importance := some "low" }]
  | Except.ok (ExtractResult.jlist items) => items
  | Except.ok (ExtractResult.jdictClaim c) => [c]
  | Except.ok ExtractResult.jother =>
    [{ claim := some "No claims could be extracted", importance := some "low" }]

/-! ## `verify_claim` and `verify_claims` (draftagent.py lines 156-209, 338-369)

Per claim the code makes three external calls: the search inside
`verify_claim` (line 157, outside the try block), the fact-checker
chain (inside the try block), and a second search in `verify_claims`
(line 350) whose formatted results become `verification_data`.
`ChainResult.nondict` stands for any successfully decoded JSON value
that is not an object; assigning `verification["claim"] = claim` to
such a value raises a `TypeError` in Python, which the stage does not
catch. -/

inductive ChainResult where
  | dict (v : Verification)
  | nondict
deriving DecidableEq

structure ClaimOracle where
  search1 : Except String (List SearchResult)
  chain : Except String ChainResult
  search2 : Except String (List SearchResult)

/-- Fallback dict built in `verify_claim` when the fact-checking chain
raises (draftagent.py lines 202-209). -/
def fallbackVerification (claim : Option String) (e : String) : Verification :=
  { accuracy_score := some 5
    confidence_level := some 5
    inaccuracies := some ["Could not properly verify: " ++ e]
    missing_context := some ["Verification process failed"]
    potential_biases := some ["Unable to assess due to verification failure"]
    corrected_claim := claim }

/-- Evidence block `"Source: ...\nTitle: ...\nContent: ..."` joined with
blank lines (draftagent.py lines 159-164 and 351-356). -/
def formatSearchResults (results : List SearchResult) : List Char :=
  (List.intercalate ("\n\n").toList
    (results.map (fun r =>
      ("Source: ").toList ++ (r.url.getD "Unknown").toList ++
      ("\nTitle: ").toList ++ (r.title.getD "No title").toList ++
      ("\nContent: ").toList ++ (r.content.getD "No content").toList)))

def verify_claim (claim : Option String) (o : ClaimOracle) : Except String ChainResult :=
  match o.search1 with
  | Except.error e => Except.error e
  | Except.ok _ =>
    match o.chain with
    | Except.ok r => Except.ok r
    | Except.error e => Except.ok (ChainResult.dict (fallbackVerification claim e))

def verify_claims_go (oracle : Nat → ClaimOracle) : Nat → List Claim →
    Except String (List Verification)
  | _, [] => Except.ok []
  | i, c :: rest =>
    match verify_claim c.claim (oracle i) with
    | Except.error e => Except.error e
    | Except.ok ChainResult.nondict =>
      Except.error "TypeError: verification result does not support item assignment"
    | Except.ok (ChainResult.dict v) =>
      match (oracle i).search2 with
      | Except.error e => Except.error e
      | Except.ok srs =>
        match verify_claims_go oracle (i + 1) rest with
        | Except.error e => Except.error e
        | Except.ok vs =>
          Except.ok
            ({ v with
                claim := c.claim
                importance := c.importance
                verification_data := some (formatSearchResults srs) } :: vs)

def verify_claims (claims : List Claim) (oracle : Nat → ClaimOracle) :
    Except String (List Verification × List (List Char)) :=
  match verify_claims_go oracle 0 claims with
  | Except.error e => Except.error e
  | Except.ok vs => Except.ok (vs, extract_references vs)

/-! ## `select_content_style` (draftagent.py lines 242-244) -/

def select_content_style (style_number : Int) : String :=
  if style_number = 1 then "blog post"
  else if style_number = 2 then "detailed report"
  else if style_number = 3 then "executive summary"
  else "blog post"

/-! ## Workflow state and the LangGraph pipeline (draftagent.py lines 255-510)

Each node returns a partial update (a dict containing only the keys it
writes; `none` fields are absent keys) that the graph merges into the
accumulated state.  A node that raises aborts `workflow.invoke`, which
then propagates the exception message. -/

structure ResearchState where
  query : String
  optimized_query : String
  pdf_context : String
  research_output : String
  claims : List Claim
  verification_results : List Verification
  references : List (List Char)
  fact_check_report : String
  content_style : String
  draft_content : String
  status : String
deriving DecidableEq

structure StateUpdate where
  query : Option String := none
  optimized_query : Option String := none
  pdf_context : Option String := none
  research_output : Option String := none
  claims : Option (List Claim) := none
  verification_results : Option (List Verification) := none
  references : Option (List (List Char)) := none
  fact_check_report : Option String := none
  content_style : Option String := none
  draft_content : Option String := none
  status : Option String := none
deriving DecidableEq

def applyUpdate (st : ResearchState) (u : StateUpdate) : ResearchState :=
  { query := u.query.getD st.query
    optimized_query := u.optimized_query.getD st.optimized_query
    pdf_context := u.pdf_context.getD st.pdf_context
    research_output := u.research_output.getD st.research_output
    claims := u.claims.getD st.claims
    verification_results := u.verification_results.getD st.verification_results
    references := u.references.getD st.references
    fact_check_report := u.fact_check_report.getD st.fact_check_report
    content_style := u.content_style.getD st.content_style
    draft_content := u.draft_content.getD st.draft_content
    status := u.status.getD st.status }

/-- The `optimize_query` node (lines 269-272): one chain call, no
try/except, so a model failure propagates. -/
def optimize_query (ollm : Except String String) : Except String StateUpdate :=
  match ollm with
  | Except.error e => Except.error e
  | Except.ok oq => Except.ok { optimized_query := some oq }

/-- Shape of the value the search provider returns, before the
defensive `isinstance` coercion in `conduct_research` (lines 282-289). -/
inductive SearchRet where
  | listRes (rs : List SearchResult)
  | strRes (s : String)
  | otherRes
deriving DecidableEq

def coerceSearch : SearchRet → List SearchResult
  | SearchRet.listRes rs => rs
  | SearchRet.strRes s =>
    [{ url := some "N/A", title := some "Search Result", content := some s }]
  | SearchRet.otherRes => []

/-- `summarize_search_results` (lines 48-72): its own try/except turns a
chain failure into an error string, so it never raises.  The formatted
search-result block is consumed only by the model call, which the
oracle `ollm` stands for. -/
def summarize_search_results (ollm : Except String String) : String :=
  match ollm with
  | Except.ok s => s
  | Except.error e => "Could not summarize search results due to an error: " ++ e

/-- True when every character is whitespace, i.e. Python
`s.strip()` is empty (so `s` is falsy or strip-falsy). -/
def pyBlank (s : String) : Bool :=
  s.toList.all (fun c =>
    c = ' ' || c = '\n' || c = '\t' || c = '\r' || c = Char.ofNat 11 || c = Char.ofNat 12)

/-- The `conduct_research` node (lines 274-332): any exception inside is
caught and becomes a placeholder `research_output`; the stage never
raises.  When `pdf_context` is present and non-blank a second
enhancement chain call replaces the web-only summary. -/
def conduct_research (st : ResearchState) (osearch : Except String SearchRet)
    (osum oenh : Except String String) : StateUpdate :=
  match osearch with
  | Except.error e =>
    { research_output := some ("Research could not be completed due to an error: " ++ e) }
  | Except.ok sr =>
    let _results := coerceSearch sr
    let ro := summarize_search_results osum
    if pyBlank st.pdf_context then
      { research_output := some ro }
    else
      match oenh with
      | Except.error e =>
        { research_output := some ("Research could not be completed due to an error: " ++ e) }
      | Except.ok enhanced => { research_output := some enhanced }

/-- The `extract_key_claims` node (lines 333-336): total, because
`extract_claims` never raises. -/
def extract_key_claims (oextract : Except String ExtractResult) : StateUpdate :=
  { claims := some (extract_claims oextract) }

/-- The `verify_claims` node (lines 338-369). -/
def verify_claims_node (st : ResearchState) (oracle : Nat → ClaimOracle) :
    Except String StateUpdate :=
  match verify_claims st.claims oracle with
  | Except.error e => Except.error e
  | Except.ok (vs, refs) =>
    Except.ok { verification_results := some vs, references := some refs }

/-- Copies of the verification records with `verification_data` removed,
fed to the report prompt (lines 375-380). -/
def removeVerificationData (vs : List Verification) : List Verification :=
  vs.map (fun v => { v with verification_data := none })

/-- The `generate_fact_check_report` node (lines 371-411): one chain
call, no try/except, so a failure propagates and is fatal. -/
def generate_fact_check_report (st : ResearchState) (ollm : Except String String) :
    Except String StateUpdate :=
  let _cleaned := removeVerificationData st.verification_results
  match ollm with
  | Except.error e => Except.error e
  | Except.ok report => Except.ok { fact_check_report := some report }

/-- The `create_draft_content` node (lines 413-440): one chain call (a
failure propagates), then think-tag stripping, then
`status = "completed"`. -/
def create_draft_content (ollm : Except String String) : Except String StateUpdate :=
  match ollm with
  | Except.error e => Except.error e
  | Except.ok raw =>
    Except.ok { draft_content := some (String.mk (stripThink raw.toList))
                status := some "completed" }

/-- One oracle per external call the pipeline makes, in stage order. -/
structure PipelineOracles where
  optimizeLLM : Except String String
  searchRet : Except String SearchRet
  summarizeLLM : Except String String
  enhanceLLM : Except String String
  extractLLM : Except String ExtractResult
  claimOracle : Nat → ClaimOracle
  reportLLM : Except String String
  draftLLM : Except String String

/-- Run one fallible node: propagate its exception or merge its partial
update into the accumulated state. -/
def runStage (st : ResearchState) (u : Except String StateUpdate) :
    Except String ResearchState :=
  match u with
  | Except.error e => Except.error e
  | Except.ok upd => Except.ok (applyUpdate st upd)

/-- `workflow.invoke` on the compiled graph (lines 442-463): the six
nodes run in the fixed order, each partial update is merged into the
accumulated state, and the first uncaught node exception aborts the
run.  `conduct_research` and `extract_key_claims` are total, so their
updates are merged directly. -/
def workflowInvoke (init : ResearchState) (o : PipelineOracles) :
    Except String ResearchState :=
  match runStage init (optimize_query o.optimizeLLM) with
  | Except.error e => Except.error e
  | Except.ok s1 =>
    let s2 := applyUpdate s1 (conduct_research s1 o.searchRet o.summarizeLLM o.enhanceLLM)
    let s3 := applyUpdate s2 (extract_key_claims o.extractLLM)
    match runStage s3 (verify_claims_node s3 o.claimOracle) with
    | Except.error e => Except.error e
    | Except.ok s4 =>
      match runStage s4 (generate_fact_check_report s4 o.reportLLM) with
      | Except.error e => Except.error e
      | Except.ok s5 => runStage s5 (create_draft_content o.draftLLM)

/-! ## `conduct_research_workflow` (draftagent.py lines 465-510)

The returned dict: on success the full final state, on any exception a
fresh dict holding only the keys written at lines 501-510 (note it has
no `claims`, `verification_results`, `references` or `pdf_context`
keys).  `none` fields are absent keys. -/

structure WorkflowResult where
  query : Option String := none
  optimized_query : Option String := none
  pdf_context : Option String := none
  research_output : Option String := none
  claims : Option (List Claim) := none
  verification_results : Option (List Verification) := none
  references : Option (List (List Char)) := none
  fact_check_report : Option String := none
  content_style : Option String := none
  draft_content : Option String := none
  status : Option String := none
  error : Option String := none
deriving DecidableEq

def workflowResultOfState (st : ResearchState) : WorkflowResult :=
  { query := some st.query
    optimized_query := some st.optimized_query
    pdf_context := some st.pdf_context
    research_output := some st.research_output
    claims := some st.claims
    verification_results := some st.verification_results
    references := some st.references
    fact_check_report := some st.fact_check_report
    content_style := some st.content_style
    draft_content := some st.draft_content
    status := some st.status }

def workflowErrorResult (query content_style e : String) : WorkflowResult :=
  { query := some query
    optimized_query := some ""
    research_output := some ("Error during research: " ++ e)
    fact_check_report := some "Fact-checking could not be performed due to research error."
    content_style := some content_style
    draft_content := some ""
    status := some "error"
    error := some e }

def initialState (query content_style pdf_context : String) : ResearchState :=
  { query := query
    optimized_query := ""
    pdf_context := pdf_context
    research_output := ""
    claims := []
    verification_results := []
    references := []
    fact_check_report := ""
    content_style := content_style
    draft_content := ""
    status := "in_progress" }

def conduct_research_workflow (query content_style pdf_context : String)
    (o : PipelineOracles) : WorkflowResult :=
  match workflowInvoke (initialState query content_style pdf_context) o with
  | Except.ok st => workflowResultOfState st
  | Except.error e => workflowErrorResult query content_style e

/-! ## Job store (`app.py`)

`JobRecord` is the per-job dict held in the in-memory `research_results`
table, with the keys written at creation (app.py lines 251-264) plus
the keys that later stages may add.  `pdf_context` can be added by
`dict.update` with a successful workflow result even though the
creation dict has no such key. -/

structure JobRecord where
  query : String
  content_style : String
  status : String
  created_at : String
  optimized_query : String
  research_output : String
  claims : List Claim
  verification_results : List Verification
  references : List (List Char)
  fact_check_report : String
  draft_content : String
  pdf_ids : List String
  processing_started : Option String := none
  completed_at : Option String := none
  error : Option String := none
  error_at : Option String := none
  pdf_context : Option String := none
deriving DecidableEq

def initialJobRecord (query content_style created_at : String) (pdf_ids : List String) :
    JobRecord :=
  { query := query
    content_style := content_style
    status := "queued"
    created_at := created_at
    optimized_query := ""
    research_output := ""
    claims := []
    verification_results := []
    references := []
    fact_check_report := ""
    draft_content := ""
    pdf_ids := pdf_ids }

/-- Python `research_results[id].update(result)`: every key present in
the workflow result dict overwrites (or adds) the corresponding entry;
absent keys leave the record untouched. -/
def dictUpdate (rec : JobRecord) (r : WorkflowResult) : JobRecord :=
  { rec with
    query := r.query.getD rec.query
    optimized_query := r.optimized_query.getD rec.optimized_query
    research_output := r.research_output.getD rec.research_output
    claims := r.claims.getD rec.claims
    verification_results := r.verification_results.getD rec.verification_results
    references := r.references.getD rec.references
    fact_check_report := r.fact_check_report.getD rec.fact_check_report
    content_style := r.content_style.getD rec.content_style
    draft_content := r.draft_content.getD rec.draft_content
    status := r.status.getD rec.status
    error := match r.error with | some e => some e | none => rec.error
    pdf_context := match r.pdf_context with | some p => some p | none => rec.pdf_context }

/-- `process_research_in_background` (app.py lines 125-189), on the path
with no PDF ids: mark processing, run the workflow, merge its result
dict into the record, then unconditionally set `status = "completed"`
and stamp `completed_at` (lines 178-180).  `conduct_research_workflow`
is total (it catches every workflow exception itself), so the outer
except branch of the task is not reached on this path. -/
def process_research_in_background (rec : JobRecord) (started_at completed_at : String)
    (wf : WorkflowResult) : JobRecord :=
  let r1 := { rec with status := "processing", processing_started := some started_at }
  let r2 := dictUpdate r1 wf
  { r2 with status := "completed", completed_at := some completed_at }

/-! ## `start_research` (app.py lines 191-282)

The `style` field of the JSON body is an arbitrary JSON number, modelled
as an exact integer or a non-integer rational `num/den`; Python
`int(style)` truncates a float toward zero, which `Int.div` matches.
The PDF-id check against the database is modelled by the predicate
`validPdf`; the generated uuid and timestamp are the parameters
`created_at` (the record's `created_at`). -/

inductive StyleVal where
  | ofInt (n : Int)
  | ofFloat (num : Int) (den : Nat)
deriving DecidableEq

def pyInt : StyleVal → Int
  | StyleVal.ofInt n => n
  | StyleVal.ofFloat num den => Int.tdiv num (Int.ofNat den)

/-- The rational number a `StyleVal` denotes (the JSON number as sent). -/
def styleValToRat : StyleVal → ℚ
  | StyleVal.ofInt n => (n : ℚ)
  | StyleVal.ofFloat num den => (num : ℚ) / (den : ℚ)

inductive StartResult where
  | badRequest (msg : String)
  | started (record : JobRecord)
deriving DecidableEq

def start_research (query : Option String) (style : StyleVal) (pdf_ids : List String)
    (validPdf : String → Bool) (created_at : String) : StartResult :=
  match query with
  | none => StartResult.badRequest "Missing required parameter: query"
  | some q =>
    if q = "" then StartResult.badRequest "Missing required parameter: query"
    else
      let n := pyInt style
      if n = 1 ∨ n = 2 ∨ n = 3 then
        if pdf_ids ≠ [] ∧ pdf_ids.filter (fun p => !(validPdf p)) ≠ [] then
          StartResult.badRequest "Some PDF IDs are invalid"
        else
          StartResult.started (initialJobRecord q (select_content_style n) created_at pdf_ids)
      else StartResult.badRequest "Style number must be between 1 and 3"

/-! ## `get_research_results` (app.py lines 284-345)

The three response shapes list exactly the keys each branch of the
endpoint serializes; the completed branch flattens the nested `query`,
`fact_check` and `content` objects into prefixed fields. -/

structure InProgressView where
  research_id : String
  status : String
  message : String
  created_at : String
  processing_started : String
  query : String
  content_style : String
  pdf_ids : List String
deriving DecidableEq

structure ErrorView where
  research_id : String
  status : String
  message : String
  error : String
  created_at : String
  error_at : String
  query : String
  content_style : String
  pdf_ids : List String
deriving DecidableEq

structure CompletedView where
  research_id : String
  status : String
  created_at : String
  completed_at : String
  query_original : String
  query_optimized : String
  research_output : String
  fact_check_report : String
  fact_check_verification_results : List Verification
  content_style : String
  content_draft : String
  references : List (List Char)
  pdf_ids : List String
deriving DecidableEq

inductive PollResponse where
  | notFound
  | inProgress (v : InProgressView)
  | errorView (v : ErrorView)
  | completed (v : CompletedView)
deriving DecidableEq

def get_research_results (research_id : String) (lookup : Option JobRecord) :
    PollResponse :=
  match lookup with
  | none => PollResponse.notFound
  | some r =>
    if r.status = "queued" ∨ r.status = "processing" then
      PollResponse.inProgress
        { research_id := research_id
          status := r.status
          message := "Research is still in progress"
          created_at := r.created_at
          processing_started := r.processing_started.getD ""
          query := r.query
          content_style := r.content_style
          pdf_ids := r.pdf_ids }
    else if r.status = "error" then
      PollResponse.errorView
        { research_id := research_id
          status := "error"
          message := "An error occurred during research"
          error := r.error.getD "Unknown error"
          created_at := r.created_at
          error_at := r.error_at.getD ""
          query := r.query
          content_style := r.content_style
          pdf_ids := r.pdf_ids }
    else
      PollResponse.completed
        { research_id := research_id
          status := r.status
          created_at := r.created_at
          completed_at := r.completed_at.getD ""
          query_original := r.query
          query_optimized := r.optimized_query
          research_output := r.research_output
          fact_check_report := r.fact_check_report
          fact_check_verification_results := r.verification_results
          content_style := r.content_style
          content_draft := r.draft_content
          references := r.references
          pdf_ids := r.pdf_ids }

/-! ## Concrete sample runs used as witnesses -/

/-- A one-claim list for the C3 witness run. -/
def c3ClaimsEx : List Claim := [{ claim := some "c1", importance := some "high" }]

/-- Per-claim oracles for the C3 witness run: both searches succeed with
no results and the fact-checker chain returns an empty JSON object. -/
def c3OracleEx : Nat → ClaimOracle :=
  fun _ => { search1 := Except.ok [], chain := Except.ok (ChainResult.dict {}),
             search2 := Except.ok [] }

/-- The verification records the C3 witness run produces. -/
def c3VsEx : List Verification :=
  [{ claim := some "c1", importance := some "high", verification_data := some [] }]

/-- A one-claim list for the C4 witness run. -/
def c4ClaimsEx : List Claim := [{ claim := some "c1", importance := some "high" }]

/-- Per-claim oracles for the C4 witness run: both searches succeed and
the fact-checker chain raises. -/
def c4OracleEx : Nat → ClaimOracle :=
  fun _ => { search1 := Except.ok [], chain := Except.error "model died",
             search2 := Except.ok [] }

/-- The verification records the C4 witness run produces: the neutral
fallback with the claim attached. -/
def c4VsEx : List Verification :=
  [{ accuracy_score := some 5
     confidence_level := some 5
     inaccuracies := some ["Could not properly verify: model died"]
     missing_context := some ["Verification process failed"]
     potential_biases := some ["Unable to assess due to verification failure"]
     corrected_claim := some "c1"
     claim := some "c1"
     importance := some "high"
     verification_data := some [] }]

/-- Oracles for the C1 run: every stage up to claim verification
succeeds (one claim, verified through the per-claim fallback), and the
report-generation chain raises. -/
def c1Oracles : PipelineOracles :=
  { optimizeLLM := Except.ok "optimized q"
    searchRet := Except.ok (SearchRet.listRes [])
    summarizeLLM := Except.ok "summary"
    enhanceLLM := Except.ok "unused"
    extractLLM := Except.ok
      (ExtractResult.jlist [{ claim := some "claim one", importance := some "high" }])
    claimOracle := fun _ =>
      { search1 := Except.ok [], chain := Except.error "parse fail", search2 := Except.ok [] }
    reportLLM := Except.error "report model crashed"
    draftLLM := Except.ok "never reached" }

/-! # Theorems -/

/-! ## Lemmas about `splitDotSpace`, `natDigits` and `urlPart` -/

theorem splitDotSpace_ne_nil (s : List Char) : splitDotSpace s ≠ [] := by
  match s with
  | [] => simp [splitDotSpace]
  | [c] => simp [splitDotSpace]
  | c1 :: c2 :: rest =>
    simp only [splitDotSpace]
    split
    · simp
    · cases splitDotSpace (c2 :: rest) <;> simp [consHead]

theorem splitDotSpace_sep (a u : List Char) (ha : ∀ c ∈ a, c ≠ '.') :
    splitDotSpace (a ++ '.' :: ' ' :: u) = a :: splitDotSpace u := by
  induction a with
  | nil =>
    show splitDotSpace ('.' :: ' ' :: u) = [] :: splitDotSpace u
    simp [splitDotSpace]
  | cons c a ih =>
    have hc : c ≠ '.' := ha c (by simp)
    cases a with
    | nil =>
      show splitDotSpace (c :: '.' :: ' ' :: u) = [c] :: splitDotSpace u
      have h1 : splitDotSpace ('.' :: ' ' :: u) = [] :: splitDotSpace u := by
        simp [splitDotSpace]
      simp only [splitDotSpace, h1]
      rw [if_neg (by simp [hc])]
      rfl
    | cons c2 a' =>
      have h2 : splitDotSpace ((c2 :: a') ++ '.' :: ' ' :: u)
          = (c2 :: a') :: splitDotSpace u :=
        ih (fun x hx => ha x (List.mem_cons_of_mem c hx))
      show splitDotSpace (c :: c2 :: (a' ++ '.' :: ' ' :: u)) = (c :: c2 :: a') :: splitDotSpace u
      simp only [splitDotSpace]
      rw [if_neg (by simp [hc])]
      have h3 : c2 :: (a' ++ '.' :: ' ' :: u) = (c2 :: a') ++ '.' :: ' ' :: u := rfl
      rw [h3, h2]
      rfl

theorem splitDotSpace_no_sep : ∀ u : List Char, hasDotSpace u = false → splitDotSpace u = [u]
  | [], _ => rfl
  | [c], _ => rfl
  | c1 :: c2 :: rest, hu => by
    have hcond : ¬(c1 = '.' ∧ c2 = ' ') := by
      intro hc
      simp only [hasDotSpace, if_pos hc] at hu
      exact Bool.noConfusion hu
    have hrest : hasDotSpace (c2 :: rest) = false := by
      simpa only [hasDotSpace, if_neg hcond] using hu
    simp only [splitDotSpace, if_neg hcond,
      splitDotSpace_no_sep (c2 :: rest) hrest]
    rfl

theorem natDigitsAux_digit : ∀ fuel n c, c ∈ natDigitsAux fuel n → ∃ d, d < 10 ∧ c = digitChar d
  | 0, n, c, h => absurd h (by simp [natDigitsAux])
  | fuel + 1, n, c, h => by
    by_cases hn : n < 10
    · simp only [natDigitsAux, if_pos hn, List.mem_singleton] at h
      exact ⟨n, hn, h⟩
    · simp only [natDigitsAux, if_neg hn, List.mem_append, List.mem_singleton] at h
      rcases h with h1 | h2
      · exact natDigitsAux_digit fuel (n / 10) c h1
      · exact ⟨n % 10, Nat.mod_lt _ (by decide), h2⟩

theorem natDigits_ne_dot (n : Nat) (c : Char) (h : c ∈ natDigits n) : c ≠ '.' := by
  obtain ⟨d, hd, rfl⟩ := natDigitsAux_digit _ _ _ h
  interval_cases d <;> decide

theorem urlPart_numbered (n : Nat) (u : List Char) (hu : hasDotSpace u = false) :
    urlPart (natDigits n ++ '.' :: ' ' :: u) = u := by
  unfold urlPart
  rw [splitDotSpace_sep _ _ (fun c hc => natDigits_ne_dot n c hc),
    splitDotSpace_no_sep u hu]
  rfl

/-! ## Lemmas about the spec-side numbering and dedup functions -/

theorem numberedRefsAux_length (k : Nat) (urls : List (List Char)) :
    (numberedRefsAux k urls).length = urls.length := by
  induction urls generalizing k with
  | nil => rfl
  | cons u rest ih => simp [numberedRefsAux, ih]

theorem map_urlPart_numbered (k : Nat) (urls : List (List Char))
    (h : ∀ u ∈ urls, hasDotSpace u = false) :
    (numberedRefsAux k urls).map urlPart = urls := by
  induction urls generalizing k with
  | nil => rfl
  | cons u rest ih =>
    simp only [numberedRefsAux, List.map_cons]
    rw [urlPart_numbered k u (h u (by simp)),
      ih (k + 1) (fun x hx => h x (List.mem_cons_of_mem u hx))]

theorem numberedRefsAux_snoc (k : Nat) (urls : List (List Char)) (u : List Char) :
    numberedRefsAux k (urls ++ [u])
      = numberedRefsAux k urls ++ [natDigits (k + urls.length) ++ '.' :: ' ' :: u] := by
  induction urls generalizing k with
  | nil => simp [numberedRefsAux]
  | cons v rest ih =>
    show numberedRefsAux k (v :: (rest ++ [u])) = _
    simp only [numberedRefsAux]
    rw [ih (k + 1)]
    have harith : k + 1 + rest.length = k + (rest.length + 1) := by omega
    rw [harith]
    rfl

theorem addSource_numbered (urls : List (List Char)) (u : List Char)
    (hurls : ∀ x ∈ urls, hasDotSpace x = false) (hu : hasDotSpace u = false) :
    addSource (numberedRefs urls) u
      = numberedRefs (if u ∈ urls then urls else urls ++ [u]) := by
  unfold addSource numberedRefs
  rw [map_urlPart_numbered 1 urls hurls, numberedRefsAux_length]
  by_cases hmem : u ∈ urls
  · rw [if_pos hmem, if_pos hmem]
  · rw [if_neg hmem, if_neg hmem, numberedRefsAux_snoc]
    have harith : 1 + urls.length = urls.length + 1 := by omega
    rw [harith]

theorem foldl_addSource_dedup : ∀ (srcs urls : List (List Char)),
    (∀ u ∈ srcs, hasDotSpace u = false) → (∀ u ∈ urls, hasDotSpace u = false) →
    srcs.foldl addSource (numberedRefs urls) = numberedRefs (dedupFirstAux urls srcs)
  | [], _, _, _ => rfl
  | u :: rest, urls, hs, hu => by
    have hu' : hasDotSpace u = false := hs u (by simp)
    rw [List.foldl_cons, addSource_numbered urls u hu hu']
    by_cases hmem : u ∈ urls
    · rw [if_pos hmem,
        foldl_addSource_dedup rest urls (fun x hx => hs x (List.mem_cons_of_mem u hx)) hu]
      simp only [dedupFirstAux, if_pos hmem]
    · rw [if_neg hmem,
        foldl_addSource_dedup rest (urls ++ [u])
          (fun x hx => hs x (List.mem_cons_of_mem u hx))
          (by
            intro x hx
            rcases List.mem_append.mp hx with h1 | h2
            · exact hu x h1
            · rw [List.mem_singleton.mp h2]; exact hu')]
      simp only [dedupFirstAux, if_neg hmem]

theorem extract_references_eq_foldl : ∀ (vrs : List Verification) (init : List (List Char)),
    vrs.foldl
      (fun references r => (findSources (r.verification_data.getD [])).foldl addSource references)
      init
      = (allSources vrs).foldl addSource init
  | [], _ => rfl
  | r :: rest, init => by
    rw [List.foldl_cons, extract_references_eq_foldl rest]
    show _ = ((r :: rest).map (fun x => findSources (x.verification_data.getD []))).flatten.foldl
      addSource init
    rw [List.map_cons, List.flatten_cons, List.foldl_append]
    rfl

theorem dedupFirstAux_nodup : ∀ (l acc : List (List Char)),
    acc.Nodup → (dedupFirstAux acc l).Nodup
  | [], _, h => h
  | u :: rest, acc, h => by
    by_cases hmem : u ∈ acc
    · simp only [dedupFirstAux, if_pos hmem]
      exact dedupFirstAux_nodup rest acc h
    · simp only [dedupFirstAux, if_neg hmem]
      refine dedupFirstAux_nodup rest (acc ++ [u]) ?_
      rw [List.nodup_append]
      exact ⟨h, List.nodup_singleton u, by simpa using hmem⟩

theorem mem_dedupFirstAux : ∀ (l acc : List (List Char)) (x : List Char),
    x ∈ dedupFirstAux acc l ↔ x ∈ acc ∨ x ∈ l
  | [], acc, x => by simp [dedupFirstAux]
  | u :: rest, acc, x => by
    by_cases hmem : u ∈ acc
    · simp only [dedupFirstAux, if_pos hmem, mem_dedupFirstAux rest acc x, List.mem_cons]
      constructor
      · rintro (h | h)
        · exact Or.inl h
        · exact Or.inr (Or.inr h)
      · rintro (h | h | h)
        · exact Or.inl h
        · exact Or.inl (h ▸ hmem)
        · exact Or.inr h
    · simp only [dedupFirstAux, if_neg hmem, mem_dedupFirstAux rest (acc ++ [u]) x,
        List.mem_append, List.mem_singleton, List.mem_cons]
      tauto

/-! ## Claim C2 -/

/-- Claim C2, counterexample: the dedup check reconstructs the stored
url as `ref.split(". ")[1]`, which truncates any url containing `". "`.
With the url `http://a.com/x. y` occurring twice in one record's
`verification_data`, the second occurrence is compared against the
truncated `http://a.com/x` rather than the stored url, so the exact
same url is appended twice: the claim that a url is appended only if no
existing entry already carries that exact url (hence one entry per
distinct url) is false. -/
theorem extract_references_dup_url :
    extract_references
      [{ verification_data :=
          some (("Source: http://a.com/x. y\nSource: http://a.com/x. y").toList) }]
      = [natDigits 1 ++ '.' :: ' ' :: ("http://a.com/x. y").toList,
         natDigits 2 ++ '.' :: ' ' :: ("http://a.com/x. y").toList] := by
  decide

/-- Claim C2 (amended): the dedup key is the chunk of each entry between
the first and second occurrence of `". "`.  Provided no scanned url
contains the separator `". "`, that key is the exact url, and the
output is then exactly the 1-based dense numbering, in first-occurrence
order, of the deduplicated url list: `extract_references` equals
`numberedRefs` of `dedupFirst` of the scanned urls (record order then
in-text order), the deduplicated urls are pairwise distinct, and a url
is listed iff it is scanned. -/
theorem extract_references_amended (vrs : List Verification)
    (H : ∀ u ∈ allSources vrs, hasDotSpace u = false) :
    extract_references vrs = numberedRefs (dedupFirst (allSources vrs)) ∧
    (dedupFirst (allSources vrs)).Nodup ∧
    (∀ x, x ∈ dedupFirst (allSources vrs) ↔ x ∈ allSources vrs) := by
  refine ⟨?_, dedupFirstAux_nodup _ [] List.nodup_nil, fun x => ?_⟩
  · have h1 : extract_references vrs = (allSources vrs).foldl addSource [] :=
      extract_references_eq_foldl vrs []
    have h2 : (allSources vrs).foldl addSource (numberedRefs [])
        = numberedRefs (dedupFirstAux [] (allSources vrs)) :=
      foldl_addSource_dedup (allSources vrs) [] H
        (fun x hx => absurd hx (List.not_mem_nil x))
    rw [h1]
    exact h2
  · simpa using mem_dedupFirstAux (allSources vrs) [] x

/-- Witness for C2's amended theorem: two records whose evidence shares
the url `https://a.com`; the hypothesis holds and the conclusion is
obtained by applying the theorem. -/
theorem extract_references_amended_witness :
    (∀ u ∈ allSources
        [{ verification_data :=
            some (("Source: https://a.com\nSource: https://b.com").toList) },
         { verification_data := some (("Source: https://a.com\nZ").toList) }],
      hasDotSpace u = false) ∧
    (extract_references
        [{ verification_data :=
            some (("Source: https://a.com\nSource: https://b.com").toList) },
         { verification_data := some (("Source: https://a.com\nZ").toList) }]
      = numberedRefs (dedupFirst (allSources
        [{ verification_data :=
            some (("Source: https://a.com\nSource: https://b.com").toList) },
         { verification_data := some (("Source: https://a.com\nZ").toList) }])) ∧
     (dedupFirst (allSources
        [{ verification_data :=
            some (("Source: https://a.com\nSource: https://b.com").toList) },
         { verification_data := some (("Source: https://a.com\nZ").toList) }])).Nodup ∧
     (∀ x, x ∈ dedupFirst (allSources
        [{ verification_data :=
            some (("Source: https://a.com\nSource: https://b.com").toList) },
         { verification_data := some (("Source: https://a.com\nZ").toList) }]) ↔
        x ∈ allSources
        [{ verification_data :=
            some (("Source: https://a.com\nSource: https://b.com").toList) },
         { verification_data := some (("Source: https://a.com\nZ").toList) }])) :=
  ⟨by decide, extract_references_amended _ (by decide)⟩

/-! ## Claim C5 -/

theorem stripThinkAux_cons (n : Nat) (c : Char) (cs : List Char) :
    stripThinkAux (n + 1) (c :: cs) =
      if isOpenTag (c :: cs) then
        match findCloseAfter ((c :: cs).drop 7) with
        | some rest => stripThinkAux n rest
        | none => c :: stripThinkAux n cs
      else c :: stripThinkAux n cs := by
  rfl

theorem stripThinkAux_no_match : ∀ (n : Nat) (s : List Char),
    hasThinkMatch s = false → stripThinkAux n s = s
  | 0, [], _ => rfl
  | _ + 1, [], _ => rfl
  | 0, _ :: _, _ => rfl
  | n + 1, c :: cs, h => by
    have h1 : (isOpenTag (c :: cs) && (findCloseAfter ((c :: cs).drop 7)).isSome) = false
        ∧ hasThinkMatch cs = false := by
      simpa [hasThinkMatch, Bool.or_eq_false_iff] using h
    by_cases ho : isOpenTag (c :: cs)
    · have hsome : (findCloseAfter ((c :: cs).drop 7)).isSome = false := by
        simpa [ho] using h1.1
      have hnone : findCloseAfter ((c :: cs).drop 7) = none := by
        cases hfc : findCloseAfter ((c :: cs).drop 7) with
        | none => rfl
        | some rest => rw [hfc] at hsome; simp at hsome
      rw [stripThinkAux_cons, if_pos ho, hnone]
      show c :: stripThinkAux n cs = c :: cs
      rw [stripThinkAux_no_match n cs h1.2]
    · rw [stripThinkAux_cons, if_neg ho]
      rw [stripThinkAux_no_match n cs h1.2]

/-- Claim C5, counterexample: stripping
`<thi<think></think>nk></think>` once deletes the inner
`<think></think>` span, and the concatenation of the remaining pieces
forms a new `<think></think>` match, which a second application also
deletes.  So one application is not idempotent. -/
theorem stripThink_not_idempotent :
    stripThink (stripThink (("<thi<think></think>nk></think>").toList))
      ≠ stripThink (("<thi<think></think>nk></think>").toList) := by
  decide

/-- Claim C5 (amended): the think-tag-stripping step is idempotent on
every input whose once-stripped output contains no remaining
`<think>...</think>` match; in general deleting a span can concatenate
the surrounding text into a new match, so a second application can
remove more. -/
theorem stripThink_idem_of_no_match (s : List Char)
    (h : hasThinkMatch (stripThink s) = false) :
    stripThink (stripThink s) = stripThink s :=
  stripThinkAux_no_match _ _ h

/-- Witness for C5's amended theorem at the input
`a<think>hidden</think>b`. -/
theorem stripThink_idem_witness :
    hasThinkMatch (stripThink (("a<think>hidden</think>b").toList)) = false ∧
    stripThink (stripThink (("a<think>hidden</think>b").toList))
      = stripThink (("a<think>hidden</think>b").toList) :=
  ⟨by decide, stripThink_idem_of_no_match _ (by decide)⟩

/-! ## Claim C6 -/

/-- Claim C6, counterexample: a decode/model failure and a decoded
non-sequence value do NOT produce the same one-element sentinel list:
the exception path text is `Error extracting claims: <error>` while the
non-sequence path text is `No claims could be extracted`, so the claim
that any decode failure yields the same sentinel stating no claims were
extracted is false. -/
theorem extract_claims_fallback_texts_differ :
    extract_claims (Except.error "boom")
        = [{ claim := some "Error extracting claims: boom", importance := some "low" }] ∧
    extract_claims (Except.ok ExtractResult.jother)
        = [{ claim := some "No claims could be extracted", importance := some "low" }] ∧
    extract_claims (Except.error "boom") ≠ extract_claims (Except.ok ExtractResult.jother) := by
  exact ⟨rfl, rfl, by decide⟩

/-- Claim C6 (amended): the claim-extraction stage never raises (it is a
total function of the chain outcome); a decode/model failure yields the
one-element importance-low fallback whose text reports the extraction
error, a decoded non-sequence without a `claim` key yields the
one-element importance-low sentinel `No claims could be extracted`, a
decoded object with a `claim` key is wrapped in a one-element list, and
a decoded sequence is returned as is. -/
theorem extract_claims_fallback_spec :
    (∀ e, extract_claims (Except.error e)
        = [{ claim := some ("Error extracting claims: " ++ e), importance := some "low" }]) ∧
    extract_claims (Except.ok ExtractResult.jother)
        = [{ claim := some "No claims could be extracted", importance := some "low" }] ∧
    (∀ c, extract_claims (Except.ok (ExtractResult.jdictClaim c)) = [c]) ∧
    (∀ items, extract_claims (Except.ok (ExtractResult.jlist items)) = items) :=
  ⟨fun _ => rfl, rfl, fun _ => rfl, fun _ => rfl⟩

/-! ## Claim C10 -/

/-- Claim C10: `select_content_style` is total, and every integer other
than 1, 2, 3 yields the default `blog post` rather than an error. -/
theorem select_content_style_default (n : Int) (h1 : n ≠ 1) (h2 : n ≠ 2) (h3 : n ≠ 3) :
    select_content_style n = "blog post" := by
  simp [select_content_style, h1, h2, h3]

/-- Witness for C10 at the out-of-range style number 7. -/
theorem select_content_style_default_witness :
    (7 : Int) ≠ 1 ∧ (7 : Int) ≠ 2 ∧ (7 : Int) ≠ 3 ∧ select_content_style 7 = "blog post" :=
  ⟨by decide, by decide, by decide,
    select_content_style_default 7 (by decide) (by decide) (by decide)⟩

/-! ## Claim C3 -/

theorem verify_claims_go_spec : ∀ (claims : List Claim) (oracle : Nat → ClaimOracle)
    (i : Nat) (vs : List Verification),
    verify_claims_go oracle i claims = Except.ok vs →
    vs.length = claims.length ∧
    ∀ j (hj : j < vs.length) (hc : j < claims.length),
      (vs.get ⟨j, hj⟩).claim = (claims.get ⟨j, hc⟩).claim
  | [], _, _, vs, h => by
    simp only [verify_claims_go, Except.ok.injEq] at h
    subst h
    exact ⟨rfl, fun j hj _ => absurd hj (by simp)⟩
  | c :: rest, oracle, i, vs, h => by
    simp only [verify_claims_go] at h
    cases hvc : verify_claim c.claim (oracle i) with
    | error e => rw [hvc] at h; exact absurd h (by simp)
    | ok cr =>
      rw [hvc] at h
      cases cr with
      | nondict => exact absurd h (by simp)
      | dict v =>
        cases hs2 : (oracle i).search2 with
        | error e => rw [hs2] at h; exact absurd h (by simp)
        | ok srs =>
          rw [hs2] at h
          cases hrec : verify_claims_go oracle (i + 1) rest with
          | error e => rw [hrec] at h; exact absurd h (by simp)
          | ok vs' =>
            rw [hrec] at h
            simp only [Except.ok.injEq] at h
            subst h
            obtain ⟨hlen, hidx⟩ := verify_claims_go_spec rest oracle (i + 1) vs' hrec
            refine ⟨by simp [hlen], ?_⟩
            intro j hj hc
            cases j with
            | zero => rfl
            | succ j' =>
              exact hidx j' (Nat.lt_of_succ_lt_succ hj) (Nat.lt_of_succ_lt_succ hc)

/-- Claim C3: whenever the claim-verification stage completes on a
non-empty claims list, `verification_results` has the same length as
`claims` and the `claim` field of the i-th record equals the `claim`
field of the i-th input claim, in order, for every behavior of the
verification model and the searches. -/
theorem verify_claims_parity (claims : List Claim) (oracle : Nat → ClaimOracle)
    (vs : List Verification) (refs : List (List Char))
    (_hne : claims ≠ [])
    (h : verify_claims claims oracle = Except.ok (vs, refs)) :
    vs.length = claims.length ∧
    ∀ j (hj : j < vs.length) (hc : j < claims.length),
      (vs.get ⟨j, hj⟩).claim = (claims.get ⟨j, hc⟩).claim := by
  unfold verify_claims at h
  cases hgo : verify_claims_go oracle 0 claims with
  | error e => rw [hgo] at h; exact absurd h (by simp)
  | ok vs0 =>
    rw [hgo] at h
    simp only [Except.ok.injEq, Prod.mk.injEq] at h
    obtain ⟨h1, _⟩ := h
    subst h1
    exact verify_claims_go_spec claims oracle 0 vs0 hgo

/-- Witness for C3: the concrete one-claim run `c3ClaimsEx` with oracles
`c3OracleEx` completes with records `c3VsEx`, and the theorem applies. -/
theorem verify_claims_parity_witness :
    c3ClaimsEx ≠ [] ∧
    verify_claims c3ClaimsEx c3OracleEx = Except.ok (c3VsEx, []) ∧
    (c3VsEx.length = c3ClaimsEx.length ∧
     ∀ j (hj : j < c3VsEx.length) (hc : j < c3ClaimsEx.length),
       (c3VsEx.get ⟨j, hj⟩).claim = (c3ClaimsEx.get ⟨j, hc⟩).claim) :=
  ⟨by decide, rfl, verify_claims_parity c3ClaimsEx c3OracleEx c3VsEx [] (by decide) rfl⟩

/-! ## Claim C4 -/

/-- Claim C4, counterexample: when the fact-checking model returns a
successfully parsed JSON value that is not an object (here: any JSON
array or scalar, `ChainResult.nondict`), `verification["claim"] =
claim` raises a `TypeError` that `verify_claims` does not catch, so the
verification stage does raise and fails the pipeline, contradicting the
claim that it never raises. -/
theorem verify_claims_raises_on_nondict :
    verify_claims [{ claim := some "c1", importance := some "high" }]
      (fun _ => { search1 := Except.ok [], chain := Except.ok ChainResult.nondict,
                  search2 := Except.ok [] })
      = Except.error "TypeError: verification result does not support item assignment" := rfl

theorem verify_claims_go_fallback : ∀ (claims : List Claim) (oracle : Nat → ClaimOracle)
    (i : Nat) (vs : List Verification),
    verify_claims_go oracle i claims = Except.ok vs →
    ∀ j (hj : j < vs.length) (hc : j < claims.length) (e : String),
      (oracle (i + j)).chain = Except.error e →
      (vs.get ⟨j, hj⟩).accuracy_score = some 5 ∧
      (vs.get ⟨j, hj⟩).confidence_level = some 5 ∧
      (vs.get ⟨j, hj⟩).inaccuracies = some ["Could not properly verify: " ++ e] ∧
      (vs.get ⟨j, hj⟩).corrected_claim = (claims.get ⟨j, hc⟩).claim ∧
      (vs.get ⟨j, hj⟩).claim = (claims.get ⟨j, hc⟩).claim
  | [], _, _, vs, h => by
    simp only [verify_claims_go, Except.ok.injEq] at h
    subst h
    exact fun j hj _ _ _ => absurd hj (by simp)
  | c :: rest, oracle, i, vs, h => by
    simp only [verify_claims_go] at h
    cases hvc : verify_claim c.claim (oracle i) with
    | error e => rw [hvc] at h; exact absurd h (by simp)
    | ok cr =>
      rw [hvc] at h
      cases cr with
      | nondict => exact absurd h (by simp)
      | dict v =>
        cases hs2 : (oracle i).search2 with
        | error e => rw [hs2] at h; exact absurd h (by simp)
        | ok srs =>
          rw [hs2] at h
          cases hrec : verify_claims_go oracle (i + 1) rest with
          | error e => rw [hrec] at h; exact absurd h (by simp)
          | ok vs' =>
            rw [hrec] at h
            simp only [Except.ok.injEq] at h
            subst h
            intro j hj hc e he
            cases j with
            | zero =>
              have hv : v = fallbackVerification c.claim e := by
                unfold verify_claim at hvc
                cases hs1 : (oracle i).search1 with
                | error e1 => rw [hs1] at hvc; exact absurd hvc (by simp)
                | ok _ =>
                  rw [hs1] at hvc
                  rw [show i + 0 = i from rfl] at he
                  rw [he] at hvc
                  simp only [Except.ok.injEq, ChainResult.dict.injEq] at hvc
                  exact hvc.symm
              subst hv
              exact ⟨rfl, rfl, rfl, rfl, rfl⟩
            | succ j' =>
              have hsh : i + (j' + 1) = (i + 1) + j' := by omega
              rw [hsh] at he
              exact verify_claims_go_fallback rest oracle (i + 1) vs' hrec j'
                (Nat.lt_of_succ_lt_succ hj) (Nat.lt_of_succ_lt_succ hc) e he

theorem verify_claims_go_total : ∀ (claims : List Claim) (oracle : Nat → ClaimOracle) (i : Nat),
    (∀ j, j < claims.length →
      (oracle (i + j)).search1.isOk = true ∧ (oracle (i + j)).search2.isOk = true ∧
      (oracle (i + j)).chain ≠ Except.ok ChainResult.nondict) →
    ∃ vs, verify_claims_go oracle i claims = Except.ok vs
  | [], _, _, _ => ⟨[], rfl⟩
  | c :: rest, oracle, i, hyp => by
    obtain ⟨hs1, hs2, hch⟩ := hyp 0 (by simp)
    rw [show i + 0 = i from rfl] at hs1 hs2 hch
    obtain ⟨vs', hrec⟩ := verify_claims_go_total rest oracle (i + 1)
      (fun j hj => by
        have := hyp (j + 1) (by simpa using Nat.succ_lt_succ hj)
        rwa [show i + (j + 1) = (i + 1) + j from by omega] at this)
    have hvd : ∃ v, verify_claim c.claim (oracle i) = Except.ok (ChainResult.dict v) := by
      unfold verify_claim
      cases h1 : (oracle i).search1 with
      | error e1 => rw [h1] at hs1; exact absurd hs1 (by simp [Except.isOk, Except.toBool])
      | ok _ =>
        cases h2 : (oracle i).chain with
        | error e => exact ⟨fallbackVerification c.claim e, rfl⟩
        | ok cr =>
          cases cr with
          | nondict => exact absurd h2 hch
          | dict v => exact ⟨v, rfl⟩
    obtain ⟨v, hv⟩ := hvd
    cases h2 : (oracle i).search2 with
    | error e2 => rw [h2] at hs2; exact absurd hs2 (by simp [Except.isOk, Except.toBool])
    | ok srs =>
      refine ⟨({ v with
                  claim := c.claim
                  importance := c.importance
                  verification_data := some (formatSearchResults srs) } :: vs'), ?_⟩
      simp only [verify_claims_go, hv, h2, hrec]

/-- Claim C4 (amended): for every claim whose fact-checking chain raises
(model or parse failure), the run that completes carries the neutral
fallback record at that position: accuracy_score 5, confidence_level 5,
an inaccuracies entry describing the failure, corrected_claim equal to
the original claim (and the claim field attached); moreover the stage
completes without raising provided every per-claim search call succeeds
and no successfully parsed chain output is a non-object.  (It can raise
otherwise: see the counterexample where the model returns a JSON
array.) -/
theorem verify_claims_amended :
    (∀ (claims : List Claim) (oracle : Nat → ClaimOracle) (vs : List Verification)
       (refs : List (List Char)) (j : Nat) (e : String),
       verify_claims claims oracle = Except.ok (vs, refs) →
       ∀ (hj : j < vs.length) (hc : j < claims.length),
       (oracle j).chain = Except.error e →
       (vs.get ⟨j, hj⟩).accuracy_score = some 5 ∧
       (vs.get ⟨j, hj⟩).confidence_level = some 5 ∧
       (vs.get ⟨j, hj⟩).inaccuracies = some ["Could not properly verify: " ++ e] ∧
       (vs.get ⟨j, hj⟩).corrected_claim = (claims.get ⟨j, hc⟩).claim ∧
       (vs.get ⟨j, hj⟩).claim = (claims.get ⟨j, hc⟩).claim) ∧
    (∀ (claims : List Claim) (oracle : Nat → ClaimOracle),
       (∀ j, j < claims.length →
         (oracle j).search1.isOk = true ∧ (oracle j).search2.isOk = true ∧
         (oracle j).chain ≠ Except.ok ChainResult.nondict) →
       ∃ out, verify_claims claims oracle = Except.ok out) := by
  constructor
  · intro claims oracle vs refs j e h hj hc he
    unfold verify_claims at h
    cases hgo : verify_claims_go oracle 0 claims with
    | error e1 => rw [hgo] at h; exact absurd h (by simp)
    | ok vs0 =>
      rw [hgo] at h
      simp only [Except.ok.injEq, Prod.mk.injEq] at h
      obtain ⟨h1, _⟩ := h
      subst h1
      exact verify_claims_go_fallback claims oracle 0 vs0 hgo j hj hc e
        (by rwa [show (0 : Nat) + j = j from by omega])
  · intro claims oracle hyp
    obtain ⟨vs, hgo⟩ := verify_claims_go_total claims oracle 0
      (fun j hj => by rw [show (0 : Nat) + j = j from by omega]; exact hyp j hj)
    exact ⟨(vs, extract_references vs), by simp only [verify_claims, hgo]⟩

/-- Witness for C4's amended theorem: the concrete one-claim run
`c4ClaimsEx` whose chain raises `model died`; the run completes with
the fallback record `c4VsEx` and the theorem applies at position 0. -/
theorem verify_claims_amended_witness :
    verify_claims c4ClaimsEx c4OracleEx = Except.ok (c4VsEx, []) ∧
    (c4OracleEx 0).chain = Except.error "model died" ∧
    ((c4VsEx.get ⟨0, by decide⟩).accuracy_score = some 5 ∧
     (c4VsEx.get ⟨0, by decide⟩).confidence_level = some 5 ∧
     (c4VsEx.get ⟨0, by decide⟩).inaccuracies
        = some ["Could not properly verify: " ++ "model died"] ∧
     (c4VsEx.get ⟨0, by decide⟩).corrected_claim = (c4ClaimsEx.get ⟨0, by decide⟩).claim ∧
     (c4VsEx.get ⟨0, by decide⟩).claim = (c4ClaimsEx.get ⟨0, by decide⟩).claim) :=
  ⟨rfl, rfl,
    verify_claims_amended.1 c4ClaimsEx c4OracleEx c4VsEx [] 0 "model died" rfl
      (by decide) (by decide) rfl⟩

/-! ## Claim C9 -/

theorem optimize_query_ok (ollm : Except String String) (u : StateUpdate)
    (h : optimize_query ollm = Except.ok u) : u.query = none := by
  cases ollm with
  | error e => exact absurd h (by simp [optimize_query])
  | ok s =>
    simp only [optimize_query, Except.ok.injEq] at h
    subst h
    rfl

theorem conduct_research_query (st : ResearchState) (o1 : Except String SearchRet)
    (o2 o3 : Except String String) : (conduct_research st o1 o2 o3).query = none := by
  unfold conduct_research
  cases o1 with
  | error e => rfl
  | ok sr =>
    cases hb : pyBlank st.pdf_context
    · cases o3 with
      | error e => simp [hb]
      | ok s => simp [hb]
    · simp [hb]

theorem extract_key_claims_query (oextract : Except String ExtractResult) :
    (extract_key_claims oextract).query = none := rfl

theorem verify_claims_node_ok (st : ResearchState) (oracle : Nat → ClaimOracle)
    (u : StateUpdate) (h : verify_claims_node st oracle = Except.ok u) : u.query = none := by
  unfold verify_claims_node at h
  cases hv : verify_claims st.claims oracle with
  | error e => rw [hv] at h; exact absurd h (by simp)
  | ok pr =>
    obtain ⟨vs, refs⟩ := pr
    rw [hv] at h
    simp only [Except.ok.injEq] at h
    subst h
    rfl

theorem generate_fact_check_report_ok (st : ResearchState) (ollm : Except String String)
    (u : StateUpdate) (h : generate_fact_check_report st ollm = Except.ok u) :
    u.query = none := by
  cases ollm with
  | error e => exact absurd h (by simp [generate_fact_check_report])
  | ok s =>
    simp only [generate_fact_check_report, Except.ok.injEq] at h
    subst h
    rfl

theorem create_draft_content_ok (ollm : Except String String) (u : StateUpdate)
    (h : create_draft_content ollm = Except.ok u) : u.query = none := by
  cases ollm with
  | error e => exact absurd h (by simp [create_draft_content])
  | ok s =>
    simp only [create_draft_content, Except.ok.injEq] at h
    subst h
    rfl

theorem applyUpdate_query_none (st : ResearchState) (u : StateUpdate)
    (h : u.query = none) : (applyUpdate st u).query = st.query := by
  simp [applyUpdate, h]

theorem runStage_query (st : ResearchState) (u : Except String StateUpdate)
    (s : ResearchState) (hnone : ∀ upd, u = Except.ok upd → upd.query = none)
    (h : runStage st u = Except.ok s) : s.query = st.query := by
  cases u with
  | error e => exact absurd h (by simp [runStage])
  | ok upd =>
    simp only [runStage, Except.ok.injEq] at h
    subst h
    exact applyUpdate_query_none st upd (hnone upd rfl)

theorem workflowInvoke_query (init : ResearchState) (o : PipelineOracles)
    (st : ResearchState) (h : workflowInvoke init o = Except.ok st) :
    st.query = init.query := by
  unfold workflowInvoke at h
  cases hr1 : runStage init (optimize_query o.optimizeLLM) with
  | error e => rw [hr1] at h; exact absurd h (by simp)
  | ok s1 =>
    rw [hr1] at h
    dsimp only at h
    set s2 := applyUpdate s1 (conduct_research s1 o.searchRet o.summarizeLLM o.enhanceLLM)
      with hs2
    set s3 := applyUpdate s2 (extract_key_claims o.extractLLM) with hs3
    cases hr4 : runStage s3 (verify_claims_node s3 o.claimOracle) with
    | error e => rw [hr4] at h; exact absurd h (by simp)
    | ok s4 =>
      rw [hr4] at h
      dsimp only at h
      cases hr5 : runStage s4 (generate_fact_check_report s4 o.reportLLM) with
      | error e => rw [hr5] at h; exact absurd h (by simp)
      | ok s5 =>
        rw [hr5] at h
        dsimp only at h
        have e6 : st.query = s5.query :=
          runStage_query _ _ _ (fun upd hu => create_draft_content_ok _ _ hu) h
        have e5 : s5.query = s4.query :=
          runStage_query _ _ _ (fun upd hu => generate_fact_check_report_ok _ _ _ hu) hr5
        have e4 : s4.query = s3.query :=
          runStage_query _ _ _ (fun upd hu => verify_claims_node_ok _ _ _ hu) hr4
        have e3 : s3.query = s2.query := by
          rw [hs3]
          exact applyUpdate_query_none _ _ (extract_key_claims_query _)
        have e2 : s2.query = s1.query := by
          rw [hs2]
          exact applyUpdate_query_none _ _ (conduct_research_query _ _ _ _)
        have e1 : s1.query = init.query :=
          runStage_query _ _ _ (fun upd hu => optimize_query_ok _ _ hu) hr1
        rw [e6, e5, e4, e3, e2, e1]

/-- Claim C9: no stage of the pipeline overwrites the `query` field —
every node's partial update leaves it absent, the orchestrator's merges
therefore preserve it, and the error fallback restores the original
query — so for every run (successful or failed) the `query` in the
returned result equals the query the workflow was started with. -/
theorem workflow_query_preserved (query content_style pdf_context : String)
    (o : PipelineOracles) :
    (conduct_research_workflow query content_style pdf_context o).query = some query := by
  unfold conduct_research_workflow
  cases hinv : workflowInvoke (initialState query content_style pdf_context) o with
  | error e => rfl
  | ok st =>
    have hq := workflowInvoke_query _ _ _ hinv
    simp [workflowResultOfState, hq, initialState]

/-! ## Claim C1 -/

/-- Claim C1 evaluated at the failing input: the report-generation chain
raises `report model crashed` after earlier stages computed one claim
and one verification record.  The workflow function itself returns an
error dict (status `error`, with no claims or verification_results
keys, discarding the partial state that was inside the aborted graph
run), and the background task then merges that dict and unconditionally
overwrites the status with `completed` (app.py line 179).  So the
stored job record ends with status `completed` — not `error` — and its
`claims` and `verification_results` are still the initial empty lists:
the earlier-stage partial state was discarded, contradicting the claim.
The error message is recorded only in the record's `error` key, which
the completed-status poll response never exposes. -/
theorem report_failure_job_record :
    (conduct_research_workflow "q" "blog post" "" c1Oracles).status = some "error" ∧
    (conduct_research_workflow "q" "blog post" "" c1Oracles).claims = none ∧
    (conduct_research_workflow "q" "blog post" "" c1Oracles).verification_results = none ∧
    (process_research_in_background (initialJobRecord "q" "blog post" "t0" []) "t1" "t2"
        (conduct_research_workflow "q" "blog post" "" c1Oracles)).status = "completed" ∧
    (process_research_in_background (initialJobRecord "q" "blog post" "t0" []) "t1" "t2"
        (conduct_research_workflow "q" "blog post" "" c1Oracles)).error
      = some "report model crashed" ∧
    (process_research_in_background (initialJobRecord "q" "blog post" "t0" []) "t1" "t2"
        (conduct_research_workflow "q" "blog post" "" c1Oracles)).claims = [] ∧
    (process_research_in_background (initialJobRecord "q" "blog post" "t0" []) "t1" "t2"
        (conduct_research_workflow "q" "blog post" "" c1Oracles)).verification_results = [] ∧
    (process_research_in_background (initialJobRecord "q" "blog post" "t0" []) "t1" "t2"
        (conduct_research_workflow "q" "blog post" "" c1Oracles)).fact_check_report
      = "Fact-checking could not be performed due to research error." := by
  decide

/-! ## Claim C7 -/

/-- Claim C7, counterexample: two queued job records that agree on
status and on every timestamp but differ in the submitted query give
different poll responses, so the in-progress response is not built from
progress fields (status and timestamps) alone — it also echoes the
query (and content_style and pdf_ids). -/
theorem poll_inprogress_leaks_query :
    get_research_results "rid" (some (initialJobRecord "query A" "blog post" "t0" []))
      ≠ get_research_results "rid" (some (initialJobRecord "query B" "blog post" "t0" [])) := by
  decide

/-- Claim C7 (amended): polling a queued or processing job returns
exactly the progress fields (status, message, created_at,
processing_started) plus an echo of the submission inputs (query,
content_style, pdf_ids) — and none of the computed workflow content:
changing optimized_query, research_output, claims, verification_results,
references, fact_check_report or draft_content leaves the response
unchanged. -/
theorem poll_inprogress_spec (id : String) (r : JobRecord)
    (h : r.status = "queued" ∨ r.status = "processing") :
    get_research_results id (some r)
      = PollResponse.inProgress
          { research_id := id
            status := r.status
            message := "Research is still in progress"
            created_at := r.created_at
            processing_started := r.processing_started.getD ""
            query := r.query
            content_style := r.content_style
            pdf_ids := r.pdf_ids } ∧
    (∀ (oq ro fcr dc : String) (cl : List Claim) (vrs : List Verification)
       (refs : List (List Char)),
      get_research_results id
        (some { r with
                  optimized_query := oq
                  research_output := ro
                  claims := cl
                  verification_results := vrs
                  references := refs
                  fact_check_report := fcr
                  draft_content := dc })
        = get_research_results id (some r)) := by
  constructor
  · unfold get_research_results
    dsimp only
    rw [if_pos h]
  · intro oq ro fcr dc cl vrs refs
    unfold get_research_results
    dsimp only
    rw [if_pos h, if_pos h]

/-- Witness for C7's amended theorem at a concrete queued record. -/
theorem poll_inprogress_spec_witness :
    ((initialJobRecord "q" "blog post" "t0" []).status = "queued" ∨
     (initialJobRecord "q" "blog post" "t0" []).status = "processing") ∧
    (get_research_results "rid" (some (initialJobRecord "q" "blog post" "t0" []))
      = PollResponse.inProgress
          { research_id := "rid"
            status := (initialJobRecord "q" "blog post" "t0" []).status
            message := "Research is still in progress"
            created_at := (initialJobRecord "q" "blog post" "t0" []).created_at
            processing_started :=
              (initialJobRecord "q" "blog post" "t0" []).processing_started.getD ""
            query := (initialJobRecord "q" "blog post" "t0" []).query
            content_style := (initialJobRecord "q" "blog post" "t0" []).content_style
            pdf_ids := (initialJobRecord "q" "blog post" "t0" []).pdf_ids } ∧
     (∀ (oq ro fcr dc : String) (cl : List Claim) (vrs : List Verification)
        (refs : List (List Char)),
       get_research_results "rid"
         (some { initialJobRecord "q" "blog post" "t0" [] with
                   optimized_query := oq
                   research_output := ro
                   claims := cl
                   verification_results := vrs
                   references := refs
                   fact_check_report := fcr
                   draft_content := dc })
         = get_research_results "rid" (some (initialJobRecord "q" "blog post" "t0" [])))) :=
  ⟨Or.inl rfl, poll_inprogress_spec "rid" (initialJobRecord "q" "blog post" "t0" []) (Or.inl rfl)⟩

/-! ## Claim C8 -/

/-- Claim C8, counterexample: the JSON style value 2.5 denotes a style
number outside the set of 1, 2 and 3, yet Python `int(2.5)` truncates
it to 2, so the submission is accepted — a job record is created with
content style `detailed report` — instead of being rejected with a
validation error. -/
theorem start_research_accepts_float_style :
    styleValToRat (StyleVal.ofFloat 5 2) ≠ 1 ∧
    styleValToRat (StyleVal.ofFloat 5 2) ≠ 2 ∧
    styleValToRat (StyleVal.ofFloat 5 2) ≠ 3 ∧
    start_research (some "q") (StyleVal.ofFloat 5 2) [] (fun _ => true) "t0"
      = StartResult.started (initialJobRecord "q" "detailed report" "t0" []) := by
  refine ⟨?_, ?_, ?_, by decide⟩
  · norm_num [styleValToRat]
  · norm_num [styleValToRat]
  · norm_num [styleValToRat]

/-- Claim C8 (amended): a submission with a non-empty query whose style
value coerces under Python `int()` to an integer outside the set of 1,
2 and 3 is rejected synchronously with the style validation error, so
no job record is created and no background task is spawned; coerced
style numbers 1, 2 and 3 map to `blog post`, `detailed report` and
`executive summary`.  (The coercion truncates non-integer JSON numbers
toward zero, so e.g. style 2.5 is accepted as 2: see the
counterexample.) -/
theorem start_research_style_validation :
    (∀ (q : String) (style : StyleVal) (pdf_ids : List String)
       (validPdf : String → Bool) (t : String),
      q ≠ "" → pyInt style ≠ 1 → pyInt style ≠ 2 → pyInt style ≠ 3 →
      start_research (some q) style pdf_ids validPdf t
        = StartResult.badRequest "Style number must be between 1 and 3") ∧
    select_content_style 1 = "blog post" ∧
    select_content_style 2 = "detailed report" ∧
    select_content_style 3 = "executive summary" := by
  refine ⟨?_, rfl, rfl, rfl⟩
  intro q style pdf_ids validPdf t hq h1 h2 h3
  unfold start_research
  dsimp only
  rw [if_neg hq, if_neg (by simp [h1, h2, h3])]

/-- Witness for C8's amended theorem at the out-of-range integer style 9. -/
theorem start_research_style_validation_witness :
    ("q" : String) ≠ "" ∧
    pyInt (StyleVal.ofInt 9) ≠ 1 ∧ pyInt (StyleVal.ofInt 9) ≠ 2 ∧ pyInt (StyleVal.ofInt 9) ≠ 3 ∧
    start_research (some "q") (StyleVal.ofInt 9) [] (fun _ => true) "t0"
      = StartResult.badRequest "Style number must be between 1 and 3" :=
  ⟨by decide, by decide, by decide, by decide,
    start_research_style_validation.1 "q" (StyleVal.ofInt 9) [] (fun _ => true) "t0"
      (by decide) (by decide) (by decide) (by decide)⟩
